import Mathlib

set_option allowUnsafeReducibility true
attribute [semireducible] Rat.add Rat.mul Rat.inv

/-!
Verification of the ubuntu-process-exporter core pipeline.

Shallow embedding of `src/collector.py` and `src/exporter.py`:

* Python strings are `String` (character lists via `.data`); Python
  floats are modelled as `Rat` (only ordering and exact small-decimal
  arithmetic occur in the properties below); Python ints are `Int`.
  `str.strip` and `str.split` are embedded as executable char-list
  functions (`pyStrip`, `pySplit`) with Python semantics.
* I/O-dependent pieces (the external collector subprocess, the Docker
  container-state directory, the `podman inspect` call) are explicit
  parameters, so every function is pure and executable.
* Python's `re.search` for the fixed patterns in `_CONTAINER_PATTERNS`
  is embedded as dedicated scan functions over character lists, one per
  pattern, faithful to leftmost-search semantics; for the backtracking
  `kubepods/[^\s]+/pod[^\s]+/` pattern the split search is exhaustive,
  so a match is found exactly when the regex matches, and the captured
  group is always a hex run of length at least 12 as in the source
  pattern.
-/

/-- `litAt pat s` is true when `pat` is an initial segment of `s`
(embeds Python `str.startswith` and the literal part of a regex). -/
def litAt : List Char → List Char → Bool
  | [], _ => true
  | _ :: _, [] => false
  | a :: as, b :: bs => a = b && litAt as bs

/-- `containsSub pat s`: `pat` occurs contiguously inside `s`
(embeds Python's `pat in s` substring test). -/
def containsSub (pat : List Char) : List Char → Bool
  | [] => litAt pat []
  | c :: rest => litAt pat (c :: rest) || containsSub pat rest

/-- The whitespace set stripped by Python's `str.strip()` (ASCII part;
unicode whitespace is outside the modelled input space). -/
def pyIsSpace (c : Char) : Bool :=
  c = ' ' || c = '\t' || c = '\n' || c = '\r' || c = '\x0b' || c = '\x0c'

/-- Python `str.strip()` on a character list. -/
def trimChars (l : List Char) : List Char :=
  ((l.dropWhile pyIsSpace).reverse.dropWhile pyIsSpace).reverse

/-- Python `str.strip()`. -/
def pyStrip (s : String) : String := String.mk (trimChars s.data)

/-- Python `str.split(sep)` for a one-character separator: keeps empty
pieces, so `splitChar sep l` is never empty. -/
def splitChar (sep : Char) : List Char → List (List Char)
  | [] => [[]]
  | c :: rest =>
    match splitChar sep rest with
    | [] => [[]]
    | h :: t => if c = sep then [] :: h :: t else (c :: h) :: t

/-- Python `str.split(sep)` on strings (one-character separator). -/
def pySplit (sep : Char) (s : String) : List String :=
  (splitChar sep s.data).map String.mk

/-- Decimal digits to a natural number (helper for `int()` / `float()`). -/
def digitsToNat (ds : List Char) : Nat :=
  ds.foldl (fun a c => a * 10 + (c.toNat - 48)) 0

/-- Python `int(s)`: optional surrounding whitespace, optional sign, one
or more decimal digits; anything else raises `ValueError`, modelled as
`none`.  (Exotic numerals — underscores, unicode digits — are outside
the modelled input space.) -/
def pythonParseInt (s : String) : Option Int :=
  let t := trimChars s.data
  let signRest : Int × List Char :=
    match t with
    | '+' :: r => (1, r)
    | '-' :: r => (-1, r)
    | r => (1, r)
  if !signRest.2.isEmpty && signRest.2.all Char.isDigit then
    some (signRest.1 * (digitsToNat signRest.2 : Int))
  else none

/-- Python `float(s)` for finite decimal literals: optional sign,
digits with optional fractional part and optional exponent; the empty
string (and any other malformed literal) raises `ValueError`, modelled
as `none`.  Values are exact rationals. -/
def pythonParseFloat (s : String) : Option Rat :=
  let t := trimChars s.data
  let signRest : Rat × List Char :=
    match t with
    | '+' :: r => (1, r)
    | '-' :: r => (-1, r)
    | r => (1, r)
  let intPart := signRest.2.span Char.isDigit
  let fracPart : List Char × List Char :=
    match intPart.2 with
    | '.' :: r => r.span Char.isDigit
    | r => ([], r)
  if intPart.1.isEmpty && fracPart.1.isEmpty then none
  else
    let mant : Rat :=
      (digitsToNat intPart.1 : Rat) +
        (digitsToNat fracPart.1 : Rat) / ((10 : Rat) ^ fracPart.1.length)
    match fracPart.2 with
    | [] => some (signRest.1 * mant)
    | e :: r3 =>
      if e = 'e' || e = 'E' then
        let esignRest : Int × List Char :=
          match r3 with
          | '+' :: r => (1, r)
          | '-' :: r => (-1, r)
          | r => (1, r)
        if !esignRest.2.isEmpty && esignRest.2.all Char.isDigit then
          some (signRest.1 * mant *
            (10 : Rat) ^ (esignRest.1 * (digitsToNat esignRest.2 : Int)))
        else none
      else none

/-- Python `s[:n]` on strings. -/
def strTake (s : String) (n : Nat) : String := String.mk (s.data.take n)

/-- `ProcessMetric` dataclass from `src/collector.py` (the `node_name`
default `_CACHED_HOSTNAME` is supplied by the parser's `host`
parameter; `namespace` is spelled `namespace_` because `namespace` is a
Lean keyword). -/
structure ProcessMetric where
  pid : Int
  user : String
  command : String
  cpu_pct : Rat
  mem_pct : Rat
  mem_rss_kb : Int
  disk_read_bytes : Int
  disk_write_bytes : Int
  ports : Option String
  cgroup_path : String
  uptime_sec : Int
  cgroup_version : String := "unknown"
  runtime : String := "host"
  container_id : String := ""
  container_name : String := ""
  pod_name : String := ""
  namespace_ : String := ""
  rank : Nat := 0
  node_name : String := ""
  deriving DecidableEq

/-- Record construction from the first 13 tab-separated fields
(`collect_data`'s `try` block).  The `Option.bind` chain mirrors the
argument evaluation order of the `ProcessMetric(...)` call: the first
conversion that raises `ValueError` aborts the record, which the caller
turns into a skipped line.  `float(pcpu) or 0.0` replaces a parsed
falsy float (0.0 / -0.0) by 0.0, the identity on `Rat`, but is kept to
mirror the source. -/
def parseParts (host : String) : List String → Option ProcessMetric
  | pid :: user :: pcpu :: pmem :: rss :: etimes :: comm :: diskRead ::
      diskWrite :: ports :: cgroupPath :: cgroupVersion :: runtime :: _ =>
    (pythonParseInt pid).bind fun pidV =>
    (pythonParseFloat pcpu).bind fun cpuV =>
    (pythonParseFloat pmem).bind fun memV =>
    (pythonParseInt rss).bind fun rssV =>
    (pythonParseInt diskRead).bind fun drV =>
    (pythonParseInt diskWrite).bind fun dwV =>
    (pythonParseInt etimes).bind fun etV =>
    some
      { pid := pidV
        user := pyStrip user
        command := pyStrip comm
        cpu_pct := if cpuV = 0 then 0 else cpuV
        mem_pct := if memV = 0 then 0 else memV
        mem_rss_kb := rssV
        disk_read_bytes := drV
        disk_write_bytes := dwV
        ports := if pyStrip ports = "" then none else some (pyStrip ports)
        cgroup_path := strTake (pyStrip cgroupPath) 500
        uptime_sec := etV
        cgroup_version := pyStrip cgroupVersion
        runtime := pyStrip runtime
        node_name := host }
  | _ => none

/-- One iteration of `collect_data`'s line loop up to record
construction: strip the line, skip it when empty or when it has fewer
than 13 tab-separated fields, otherwise parse the first 13 fields. -/
def parseLine (host : String) (line : String) : Option ProcessMetric :=
  let l := pyStrip line
  if l = "" then none
  else
    let parts := pySplit '\t' l
    if parts.length < 13 then none else parseParts host parts

/-- `[a-f0-9]` character class of `_CONTAINER_PATTERNS`. -/
def isHexChar (c : Char) : Bool :=
  ('0' ≤ c && c ≤ '9') || ('a' ≤ c && c ≤ 'f')

/-- Optional upper bound on a greedy capture (`{12,64}` vs `{12,}`). -/
def applyCap : Option Nat → List Char → List Char
  | none, r => r
  | some m, r => r.take m

/-- `re.search` for a pattern of the shape `lit([a-f0-9]{12,})` or
`lit([a-f0-9]{12,64})`: scan left to right for an occurrence of the
literal `lit` followed by at least 12 hex characters, and capture the
maximal hex run after it (truncated to the cap when present). -/
def searchLitHex (lit : List Char) (cap : Option Nat) : List Char → Option (List Char)
  | [] => none
  | c :: rest =>
    if litAt lit (c :: rest)
        ∧ 12 ≤ (((c :: rest).drop lit.length).takeWhile isHexChar).length then
      some (applyCap cap (((c :: rest).drop lit.length).takeWhile isHexChar))
    else searchLitHex lit cap rest

/-- `re.search` for `lxc/([^/]+)`: scan for `lxc/` followed by at least
one non-`/` character; the capture is the maximal non-`/` run. -/
def searchLxc : List Char → Option (List Char)
  | [] => none
  | c :: rest =>
    if litAt "lxc/".data (c :: rest)
        ∧ ¬(((c :: rest).drop 4).takeWhile (fun ch => ch ≠ '/')).isEmpty then
      some (((c :: rest).drop 4).takeWhile (fun ch => ch ≠ '/'))
    else searchLxc rest

/-- The `B[^\s]*/hex{12,}` suffix of the `kubepods` pattern: consume
non-whitespace characters; at every `/` that already has at least one
consumed character before it (`seen`), the capture `[a-f0-9]{12,}` may
start right after.  All split points are tried, so a match is found
exactly when the regex engine (with backtracking) finds one. -/
def scanPodTail : Bool → List Char → Option (List Char)
  | _, [] => none
  | seen, c :: rest =>
    if c = '/' then
      if seen ∧ 12 ≤ (rest.takeWhile isHexChar).length then some (rest.takeWhile isHexChar)
      else scanPodTail true rest
    else if pyIsSpace c then none
    else scanPodTail true rest

/-- The `A[^\s]*/pod...` middle of the `kubepods` pattern: consume
non-whitespace characters; at every position with at least one consumed
character (`seen`) where the literal `/pod` starts, try the tail. -/
def scanPodMid : Bool → List Char → Option (List Char)
  | _, [] => none
  | seen, c :: rest =>
    if seen ∧ litAt "/pod".data (c :: rest)
        ∧ (scanPodTail false ((c :: rest).drop 4)).isSome then
      scanPodTail false ((c :: rest).drop 4)
    else if pyIsSpace c then none
    else scanPodMid true rest

/-- `re.search` for `kubepods/[^\s]+/pod[^\s]+/([a-f0-9]{12,})`. -/
def searchKubepods : List Char → Option (List Char)
  | [] => none
  | c :: rest =>
    if litAt "kubepods/".data (c :: rest)
        ∧ (scanPodMid false ((c :: rest).drop 9)).isSome then
      scanPodMid false ((c :: rest).drop 9)
    else searchKubepods rest

/-- `for pat in patterns: ... if match: return match.group(1)`. -/
def firstPatternMatch : List (List Char → Option (List Char)) → List Char → Option (List Char)
  | [], _ => none
  | p :: ps, s =>
    match p s with
    | some r => some r
    | none => firstPatternMatch ps s

/-- `_CONTAINER_PATTERNS.get(runtime)`: the per-runtime ordered pattern
lists of `src/collector.py`. -/
def containerPatterns (runtime : String) : Option (List (List Char → Option (List Char))) :=
  if runtime = "docker" then
    some [searchLitHex "docker/".data (some 64), searchLitHex "docker-".data none]
  else if runtime = "containerd" then
    some [searchLitHex "cri-containerd-".data none]
  else if runtime = "kubernetes" then
    some [searchLitHex "cri-containerd-".data none, searchLitHex "docker-".data none,
      searchKubepods]
  else if runtime = "podman" then
    some [searchLitHex "libpod-".data none]
  else if runtime = "lxc" then
    some [searchLxc]
  else none

/-- `extract_container_id` from `src/collector.py`: first matching
pattern's group 1, truncated to 12 characters; empty string when no
pattern list exists for the runtime or none matches. -/
def extract_container_id (cgroup_path : String) (runtime : String) : String :=
  match containerPatterns runtime with
  | some pats =>
    match firstPatternMatch pats cgroup_path.data with
    | some g => String.mk (g.take 12)
    | none => ""
  | none => ""

/-- Modelled from the spec: the Runtime Classifier (spec §4.2) does not
appear under `src/` — the `runtime` field of each record is produced by
the external `collector.sh`, which the repository invokes but whose
code is not present.  Following the spec's words: an ordered list of
(tag, pattern) rules over the cgroup path, evaluated top to bottom,
kubernetes-specific patterns before the generic docker/containerd
patterns, first match wins, no match yields `host`; the result is one
tag from {kubernetes, docker, containerd, podman, lxc, systemd, host}. -/
def classify_runtime (cgroup_path : String) : String :=
  if containsSub "kubepods".data cgroup_path.data then "kubernetes"
  else if containsSub "docker".data cgroup_path.data then "docker"
  else if containsSub "containerd".data cgroup_path.data then "containerd"
  else if containsSub "libpod".data cgroup_path.data then "podman"
  else if containsSub "lxc".data cgroup_path.data then "lxc"
  else if containsSub ".service".data cgroup_path.data then "systemd"
  else "host"

/-- `{'container_name': '', 'pod_name': '', 'namespace': ''}` — the
all-empty triple of `resolve_container_metadata`'s short-circuit. -/
def threeEmpty : List (String × String) :=
  [("container_name", ""), ("pod_name", ""), ("namespace", "")]

/-- The `for d in os.listdir(containers_dir)` loop body of
`_docker_metadata`.  Each directory entry is paired with its
`config.v2.json` state: `none` — no config file (the inner `if` fails
and the loop continues); `some none` — reading or JSON-decoding raises
(`except` clause: the whole lookup returns `{}`); `some (some name)` —
the decoded `Name` value (`config.get('Name', '')`). -/
def dockerMetadataLoop (cid : List Char) :
    List (String × Option (Option String)) → List (String × String)
  | [] => []
  | (d, cfg) :: rest =>
    if litAt cid d.data then
      match cfg with
      | none => dockerMetadataLoop cid rest
      | some none => []
      | some (some name) =>
        [("container_name", String.mk (name.data.dropWhile (fun c => c = '/')))]
    else dockerMetadataLoop cid rest

/-- `_docker_metadata` from `src/collector.py`; `fs` is `none` when
`/var/lib/docker/containers` does not exist. -/
def docker_metadata (fs : Option (List (String × Option (Option String))))
    (cid : String) : List (String × String) :=
  match fs with
  | none => []
  | some entries => dockerMetadataLoop cid.data entries

/-- `_podman_metadata` from `src/collector.py`; `res` is `none` when
`podman inspect` fails (non-zero exit, timeout, malformed JSON output),
and `some name` for the decoded `data[0].get('Name', '')`. -/
def podman_metadata (res : Option String) : List (String × String) :=
  match res with
  | none => []
  | some name => [("container_name", name)]

/-- `resolve_container_metadata` from `src/collector.py` (the
`lru_cache` memoization of a pure function does not change its value
and is not modelled). -/
def resolve_container_metadata (fs : Option (List (String × Option (Option String))))
    (res : Option String) (container_id runtime : String) : List (String × String) :=
  if container_id = "" || runtime = "host" then threeEmpty
  else if runtime = "docker" then docker_metadata fs container_id
  else if runtime = "podman" then podman_metadata res
  else if runtime = "lxc" then
    [("container_name", container_id), ("pod_name", ""), ("namespace", "")]
  else []

/-- Python's `sorted(xs, key=k, reverse=True)`.  CPython's sort is
stable (also under `reverse=True`), and a stable sort by a total
preorder is unique, so the stable insertion sort with the relation
"key of the left is at least key of the right" computes the same list. -/
def pySortedDesc {α : Type} (k : α → Rat) (l : List α) : List α :=
  List.insertionSort (fun a b => k b ≤ k a) l

/-- The sort key of `collect_data`'s final `sorted(...)` call:
`p.cpu_pct + p.mem_pct`. -/
def compositeKey (p : ProcessMetric) : Rat := p.cpu_pct + p.mem_pct

/-- `setattr(pm, k, v)` for one metadata entry; every key produced by
`resolve_container_metadata` is one of the three attribute names below
(an unknown key would raise `AttributeError` on the slotted dataclass,
and none occurs). -/
def applyMetaEntry (pm : ProcessMetric) (kv : String × String) : ProcessMetric :=
  if kv.1 = "container_name" then { pm with container_name := kv.2 }
  else if kv.1 = "pod_name" then { pm with pod_name := kv.2 }
  else if kv.1 = "namespace" then { pm with namespace_ := kv.2 }
  else pm

/-- `for k, v in metadata.items(): setattr(pm, k, v)`. -/
def applyMeta (pm : ProcessMetric) (m : List (String × String)) : ProcessMetric :=
  m.foldl applyMetaEntry pm

/-- The enrichment-and-filter tail of `collect_data`'s line loop:
container-id extraction (the parser always leaves `container_id`
empty), metadata resolution, and the kernel-thread / pid-0 filter. -/
def processLine (host : String) (fs : Option (List (String × Option (Option String))))
    (res : Option String) (line : String) : Option ProcessMetric :=
  (parseLine host line).bind fun pm0 =>
  let pm1 :=
    if pm0.runtime ≠ "host" && pm0.container_id = "" then
      { pm0 with container_id := extract_container_id pm0.cgroup_path pm0.runtime }
    else pm0
  let pm2 := applyMeta pm1 (resolve_container_metadata fs res pm1.container_id pm1.runtime)
  if litAt "[".data pm2.command.data || pm2.pid = 0 then none else some pm2

/-- The parsed, enriched, filtered record list of one scrape:
`raw_output.split('\n')` fed through the line loop. -/
def collectFromOutput (host : String) (fs : Option (List (String × Option (Option String))))
    (res : Option String) (stdout : String) : List ProcessMetric :=
  (pySplit '\n' stdout).filterMap (processLine host fs res)

/-- Outcome of the `subprocess.run(['./collector.sh'], ...)` call under
the `timeout` context manager: captured stdout on success, or one of
the three caught exception classes. -/
inductive CollectorOutcome where
  | ok (stdout : String)
  | calledProcessError
  | timeoutError
  | fileNotFoundError
  deriving DecidableEq

/-- True for the three failure constructors (the `except` clause of
`collect_data`). -/
def CollectorOutcome.isFailure : CollectorOutcome → Bool
  | .ok _ => false
  | _ => true

/-- `collect_data` from `src/collector.py`: on any caught collector
failure return `[]`; otherwise parse, enrich and filter the lines, then
`sorted(processes, key=lambda p: p.cpu_pct + p.mem_pct, reverse=True)[:TOP_N]`. -/
def collect_data (host : String) (fs : Option (List (String × Option (Option String))))
    (res : Option String) (topN : Nat) : CollectorOutcome → List ProcessMetric
  | .ok stdout => (pySortedDesc compositeKey (collectFromOutput host fs res stdout)).take topN
  | _ => []

/-- The sequential effect of `for rank, p in enumerate(top, 1):
p.rank = rank` on shared mutable records, as a rank map keyed by each
record's index in the scrape's record list. -/
def assignRanks : List (Nat × ProcessMetric) → Nat → (Nat → Nat) → (Nat → Nat)
  | [], _, r => r
  | (i, _) :: rest, j, r => assignRanks rest (j + 1) (fun x => if x = i then j else r x)

/-- `get_top_n` from `src/collector.py` on indexed records: sort the
scrape's records by the dimension key descending, truncate to `n`, and
assign ranks 1.. to the surviving records (mutating the shared rank
state). -/
def get_top_n (k : ProcessMetric → Rat) (n : Nat) (items : List (Nat × ProcessMetric))
    (r : Nat → Nat) : List (Nat × ProcessMetric) × (Nat → Nat) :=
  let top := (pySortedDesc (fun it => k it.2) items).take n
  (top, assignRanks top 1 r)

/-- The five ranked lists of `aggregate_top` plus the rank state after
all five `get_top_n` calls (the value each shared record's `rank` field
holds from then on, in particular while the handler renders labels). -/
structure TopAggregation where
  memory : List (Nat × ProcessMetric)
  cpu : List (Nat × ProcessMetric)
  disk_read : List (Nat × ProcessMetric)
  disk_write : List (Nat × ProcessMetric)
  combined : List (Nat × ProcessMetric)
  finalRanks : Nat → Nat

/-- `aggregate_top` from `src/collector.py`.  The dict literal
evaluates its values in source order — memory, cpu, disk_read,
disk_write, combined — and every `get_top_n` call mutates the `rank`
field of the same shared `ProcessMetric` objects, modelled by threading
the rank map through the five calls. -/
def aggregate_top (n : Nat) (ps : List ProcessMetric) : TopAggregation :=
  let items := ps.enum
  let r0 : Nat → Nat := fun i => ((ps.get? i).map ProcessMetric.rank).getD 0
  let mem := get_top_n (fun p => (p.mem_rss_kb : Rat) * (1 + p.mem_pct)) n items r0
  let cpu := get_top_n (fun p => p.cpu_pct) n items mem.2
  let dr := get_top_n (fun p => (p.disk_read_bytes : Rat)) n items cpu.2
  let dw := get_top_n (fun p => (p.disk_write_bytes : Rat)) n items dr.2
  let comb := get_top_n (fun p => p.cpu_pct + p.mem_pct * 10) n items dw.2
  { memory := mem.1, cpu := cpu.1, disk_read := dr.1, disk_write := dw.1,
    combined := comb.1, finalRanks := comb.2 }

/-- `VALID_LABELS` from `src/exporter.py`. -/
def VALID_LABELS : List String :=
  ["pid", "user", "command", "runtime", "cgroup_version", "rank",
   "container_id", "container_name", "pod_name",
   "namespace", "ports", "hostname"]

/-- `LABEL_ALIASES` from `src/exporter.py`. -/
def LABEL_ALIASES : List (String × String) :=
  [("port", "ports"), ("host", "hostname"), ("container", "container_name"),
   ("pod", "pod_name"), ("ns", "namespace")]

/-- `normalize_labels` from `src/exporter.py` as the membership-set it
builds: split on commas, strip, drop empties, map through the alias
table, keep only canonical names (invalid ones are logged and
dropped). -/
def normalize_labels (raw : String) : List String :=
  ((pySplit ',' raw).map pyStrip).filterMap fun label =>
    if label = "" then none
    else
      let normalized := ((LABEL_ALIASES.lookup label).getD label)
      if normalized ∈ VALID_LABELS then some normalized else none

/-- `labels_for` from `src/exporter.py`.  `rank` is the value of
`p.rank` at call time (the shared-mutation rank state); `host` is the
pre-computed `_STATIC_LABELS` hostname; `includeLs` is the configured
`_INCLUDE_LABELS_SET`. -/
def labels_for (includeLs : List String) (host : String) (rank : Nat)
    (p : ProcessMetric) : List (String × String) :=
  let all_labels : List (String × String) :=
    [("pid", toString p.pid),
     ("user", p.user),
     ("command", strTake p.command 64),
     ("runtime", p.runtime),
     ("cgroup_version", if p.cgroup_version = "" then "unknown" else p.cgroup_version),
     ("rank", toString rank),
     ("container_id", strTake p.container_id 12),
     ("container_name", strTake p.container_name 64),
     ("pod_name", strTake p.pod_name 64),
     ("namespace", strTake p.namespace_ 64),
     ("ports", match p.ports with | some s => s | none => ""),
     ("hostname", host)]
  all_labels.filter fun kv => decide (kv.1 ∈ includeLs)

/-- The gzip condition of `MetricsHandler._write_metrics`:
`ENABLE_GZIP and 'gzip' in accept_encoding and len(output) >= GZIP_MIN_SIZE`. -/
def useGzip (enableGzip : Bool) (acceptEncoding : String) (outputLen gzipMinSize : Nat) :
    Bool :=
  enableGzip && containsSub "gzip".data acceptEncoding.data &&
    decide (gzipMinSize ≤ outputLen)

/-- A label-keyed gauge family (`Gauge.labels(**labels).set(v)` keyed by
the exact label mapping). -/
def gaugeSet (g : List (List (String × String) × Rat)) (L : List (String × String))
    (v : Rat) : List (List (String × String) × Rat) :=
  if g.any (fun e => decide (e.1 = L)) then
    g.map (fun e => if e.1 = L then (L, v) else e)
  else g ++ [(L, v)]

/-- `PROCESSES_TOTAL.labels(runtime=rt).set(count)` — a gauge keyed by
the runtime label alone. -/
def gaugeSetRT (g : List (String × Rat)) (rt : String) (v : Rat) : List (String × Rat) :=
  if g.any (fun e => decide (e.1 = rt)) then
    g.map (fun e => if e.1 = rt then (rt, v) else e)
  else g ++ [(rt, v)]

/-- The `runtime_counts` dict of `_handle_metrics` (insertion order). -/
def bumpCount (l : List (String × Nat)) (rt : String) : List (String × Nat) :=
  if l.any (fun e => decide (e.1 = rt)) then
    l.map (fun e => if e.1 = rt then (rt, e.2 + 1) else e)
  else l ++ [(rt, 1)]

/-- `runtime_counts` accumulated over the scrape's record list. -/
def runtimeCounts (ps : List ProcessMetric) : List (String × Nat) :=
  ps.foldl (fun acc p => bumpCount acc p.runtime) []

/-- The prometheus registry state the handler reads and writes: the
cumulative scrape-error counter, the per-runtime process-count gauge,
and the six per-dimension gauge families of `ALL_METRICS`. -/
structure ExporterState where
  scrapeErrors : Nat
  processesTotal : List (String × Rat)
  cpuGauge : List (List (String × String) × Rat)
  memBytesGauge : List (List (String × String) × Rat)
  memPctGauge : List (List (String × String) × Rat)
  diskReadGauge : List (List (String × String) × Rat)
  diskWriteGauge : List (List (String × String) × Rat)
  uptimeGauge : List (List (String × String) × Rat)
  deriving DecidableEq

/-- `clear_metrics()` from `src/exporter.py`: clear the six dimension
gauge families (`PROCESSES_TOTAL` and the counters are not in
`ALL_METRICS`). -/
def clear_metrics (st : ExporterState) : ExporterState :=
  { st with cpuGauge := [], memBytesGauge := [], memPctGauge := [],
            diskReadGauge := [], diskWriteGauge := [], uptimeGauge := [] }

/-- `MetricsHandler._handle_metrics` from `src/exporter.py` on the
non-exception path, given the scrape's collected record list: when the
list is empty, log a warning and render immediately (no counter
increment, no clearing); otherwise set the per-runtime counts, clear
the dimension gauges, aggregate, and populate the cpu / memory /
disk_read / disk_write gauge families (each with a parallel uptime
sample), then render.  The result is the new registry state and the
HTTP status code. -/
def handle_metrics (includeLs : List String) (host : String) (topN : Nat)
    (processes : List ProcessMetric) (st : ExporterState) : ExporterState × Nat :=
  if processes.isEmpty then (st, 200)
  else
    let counts := runtimeCounts processes
    let st1 := { st with
      processesTotal :=
        counts.foldl (fun g rc => gaugeSetRT g rc.1 (rc.2 : Rat)) st.processesTotal }
    let st2 := clear_metrics st1
    let agg := aggregate_top topN processes
    let fr := agg.finalRanks
    let st3 := agg.cpu.foldl (fun s it =>
      let L := labels_for includeLs host (fr it.1) it.2
      { s with cpuGauge := gaugeSet s.cpuGauge L it.2.cpu_pct,
               uptimeGauge := gaugeSet s.uptimeGauge L (it.2.uptime_sec : Rat) }) st2
    let st4 := agg.memory.foldl (fun s it =>
      let L := labels_for includeLs host (fr it.1) it.2
      { s with memBytesGauge := gaugeSet s.memBytesGauge L ((it.2.mem_rss_kb : Rat) * 1024),
               memPctGauge := gaugeSet s.memPctGauge L it.2.mem_pct,
               uptimeGauge := gaugeSet s.uptimeGauge L (it.2.uptime_sec : Rat) }) st3
    let st5 := agg.disk_read.foldl (fun s it =>
      let L := labels_for includeLs host (fr it.1) it.2
      { s with diskReadGauge := gaugeSet s.diskReadGauge L (it.2.disk_read_bytes : Rat),
               uptimeGauge := gaugeSet s.uptimeGauge L (it.2.uptime_sec : Rat) }) st4
    let st6 := agg.disk_write.foldl (fun s it =>
      let L := labels_for includeLs host (fr it.1) it.2
      { s with diskWriteGauge := gaugeSet s.diskWriteGauge L (it.2.disk_write_bytes : Rat),
               uptimeGauge := gaugeSet s.uptimeGauge L (it.2.uptime_sec : Rat) }) st5
    (st6, 200)

/-- The default `INCLUDE_LABELS` configuration of `src/exporter.py`. -/
def defaultInclude : List String :=
  normalize_labels
    "pid,user,command,runtime,rank,container_id,container_name,pod_name,namespace,ports,hostname"

/-- A registry state with nothing populated yet. -/
def emptyState : ExporterState :=
  { scrapeErrors := 0, processesTotal := [], cpuGauge := [], memBytesGauge := [],
    memPctGauge := [], diskReadGauge := [], diskWriteGauge := [], uptimeGauge := [] }

/-- A concrete record with a listening port, used to instantiate the
label-projection property. -/
def portsRec : ProcessMetric :=
  { pid := 1, user := "u", command := "c", cpu_pct := 0, mem_pct := 0, mem_rss_kb := 0,
    disk_read_bytes := 0, disk_write_bytes := 0, ports := some "80", cgroup_path := "/",
    uptime_sec := 0 }

/-- A registry state left over from an earlier scrape, with one
populated cpu series. -/
def staleState : ExporterState :=
  { emptyState with cpuGauge := [([("pid", "1")], 5)] }

/-- Concrete scrape record A: cpu 10, mem 0 (drives the rank-overwrite
counterexample). -/
def pmA : ProcessMetric :=
  { pid := 1, user := "u", command := "a", cpu_pct := 10, mem_pct := 0, mem_rss_kb := 0,
    disk_read_bytes := 0, disk_write_bytes := 0, ports := none, cgroup_path := "/x",
    uptime_sec := 100, cgroup_version := "v2", runtime := "host", node_name := "h" }

/-- Concrete scrape record B: cpu 5, mem 2, so the combined key
cpu + 10*mem ranks it above A while the cpu key ranks it below. -/
def pmB : ProcessMetric :=
  { pid := 2, user := "u", command := "b", cpu_pct := 5, mem_pct := 2, mem_rss_kb := 0,
    disk_read_bytes := 0, disk_write_bytes := 0, ports := none, cgroup_path := "/x",
    uptime_sec := 200, cgroup_version := "v2", runtime := "host", node_name := "h" }

/-- A concrete three-line collector stdout with composite keys
10, 4 and 7. -/
def out0 : String :=
  "1\tu\t10.0\t0.0\t0\t5\ta\t0\t0\t\t/x\tv2\thost\n2\tu\t4.0\t0.0\t0\t5\tb\t0\t0\t\t/x\tv2\thost\n3\tu\t7.0\t0.0\t0\t5\tc\t0\t0\t\t/x\tv2\thost"

/-- A pattern function whose captured group always has at least 12
characters (the `{12,...}` quantifier of the hex patterns). -/
def PatSound (f : List Char → Option (List Char)) : Prop :=
  ∀ s r, f s = some r → 12 ≤ r.length

theorem applyCap_length {cap : Option Nat} (hcap : ∀ m, cap = some m → 12 ≤ m)
    {run : List Char} (hrun : 12 ≤ run.length) : 12 ≤ (applyCap cap run).length := by
  cases cap with
  | none => exact hrun
  | some m =>
    simp only [applyCap, List.length_take]
    exact le_min (hcap m rfl) hrun

theorem searchLitHex_sound {lit : List Char} {cap : Option Nat}
    (hcap : ∀ m, cap = some m → 12 ≤ m) : PatSound (searchLitHex lit cap) := by
  intro s
  induction s with
  | nil => intro r h; simp [searchLitHex] at h
  | cons c rest ih =>
    intro r h
    rw [searchLitHex] at h
    split at h
    · rename_i hcond
      cases h
      exact applyCap_length hcap hcond.2
    · exact ih r h

theorem scanPodTail_sound : ∀ (seen : Bool) (s : List Char) (r : List Char),
    scanPodTail seen s = some r → 12 ≤ r.length := by
  intro seen s
  induction s generalizing seen with
  | nil => intro r h; simp [scanPodTail] at h
  | cons c rest ih =>
    intro r h
    rw [scanPodTail] at h
    split at h
    · split at h
      · rename_i hcond
        cases h
        exact hcond.2
      · exact ih true r h
    · split at h
      · simp at h
      · exact ih true r h

theorem scanPodMid_sound : ∀ (seen : Bool) (s : List Char) (r : List Char),
    scanPodMid seen s = some r → 12 ≤ r.length := by
  intro seen s
  induction s generalizing seen with
  | nil => intro r h; simp [scanPodMid] at h
  | cons c rest ih =>
    intro r h
    rw [scanPodMid] at h
    split at h
    · exact scanPodTail_sound false _ r h
    · split at h
      · simp at h
      · exact ih true r h

theorem searchKubepods_sound : PatSound searchKubepods := by
  intro s
  induction s with
  | nil => intro r h; simp [searchKubepods] at h
  | cons c rest ih =>
    intro r h
    rw [searchKubepods] at h
    split at h
    · exact scanPodMid_sound false _ r h
    · exact ih r h

theorem firstPatternMatch_sound {pats : List (List Char → Option (List Char))}
    (hp : ∀ p ∈ pats, PatSound p) :
    ∀ s r, firstPatternMatch pats s = some r → 12 ≤ r.length := by
  induction pats with
  | nil => intro s r h; simp [firstPatternMatch] at h
  | cons p ps ih =>
    intro s r h
    rw [firstPatternMatch] at h
    cases hps : p s with
    | some v =>
      rw [hps] at h
      cases h
      exact hp p (List.mem_cons_self p ps) s _ hps
    | none =>
      rw [hps] at h
      exact ih (fun q hq => hp q (List.mem_cons_of_mem p hq)) s r h

theorem strMk_length (l : List Char) : (String.mk l).length = l.length := rfl

/-- Claim C7, counterexample: the claim says container-id extraction
returns either the empty string or exactly 12 characters, but the lxc
pattern `lxc/([^/]+)` has no minimum length — on the cgroup path
`lxc/web` with runtime `lxc` the extractor returns the 3-character
identifier `web`. -/
theorem lxc_short_container_id :
    extract_container_id "lxc/web" "lxc" = "web" ∧
    ¬(extract_container_id "lxc/web" "lxc" = "" ∨
      (extract_container_id "lxc/web" "lxc").length = 12) := by decide

/-- Claim C7, amended: container-id extraction never returns more than
12 characters; for every runtime other than `lxc` (whose pattern
captures an arbitrary non-empty directory name) the result is the empty
string or exactly 12 characters, because every non-lxc pattern requires
a hex run of length at least 12 before the `[:12]` truncation. -/
theorem container_id_length_bound (path rt : String) :
    (extract_container_id path rt).length ≤ 12 ∧
    (rt ≠ "lxc" →
      (extract_container_id path rt).length = 0 ∨
        (extract_container_id path rt).length = 12) := by
  cases hp : containerPatterns rt with
  | none => simp [extract_container_id, hp]
  | some pats =>
    cases hm : firstPatternMatch pats path.data with
    | none => simp [extract_container_id, hp, hm]
    | some g =>
      have hE : extract_container_id path rt = String.mk (g.take 12) := by
        simp [extract_container_id, hp, hm]
      rw [hE]
      refine ⟨?_, ?_⟩
      · rw [strMk_length, List.length_take]
        exact min_le_left _ _
      · intro hrt
        right
        have hsound : ∀ p ∈ pats, PatSound p := by
          unfold containerPatterns at hp
          split_ifs at hp with h1 h2 h3 h4
          · cases hp
            intro p hmem
            simp only [List.mem_cons, List.mem_singleton] at hmem
            rcases hmem with h | h | h
            · subst h
              exact searchLitHex_sound (fun m hm => by cases hm; decide)
            · subst h
              exact searchLitHex_sound (fun m hm => by cases hm)
            · simp at h
          · cases hp
            intro p hmem
            simp only [List.mem_singleton] at hmem
            subst hmem
            exact searchLitHex_sound (fun m hm => by cases hm)
          · cases hp
            intro p hmem
            simp only [List.mem_cons, List.mem_singleton] at hmem
            rcases hmem with h | h | h | h
            · subst h
              exact searchLitHex_sound (fun m hm => by cases hm)
            · subst h
              exact searchLitHex_sound (fun m hm => by cases hm)
            · subst h
              exact searchKubepods_sound
            · simp at h
          · cases hp
            intro p hmem
            simp only [List.mem_singleton] at hmem
            subst hmem
            exact searchLitHex_sound (fun m hm => by cases hm)
        have h12 : 12 ≤ g.length := firstPatternMatch_sound hsound path.data g hm
        rw [strMk_length, List.length_take]
        exact min_eq_left h12

/-- Claim C7, witness: the amended bound applied to a concrete docker
path. -/
theorem container_id_length_bound_witness :
    ("docker" ≠ "lxc") ∧
    ((extract_container_id "/docker/0123456789ab.scope" "docker").length = 0 ∨
      (extract_container_id "/docker/0123456789ab.scope" "docker").length = 12) :=
  ⟨by decide, (container_id_length_bound "/docker/0123456789ab.scope" "docker").2 (by decide)⟩

/-- Claim C2: runtime classification (spec-modelled, see
`classify_runtime`) is a pure function of the cgroup path — it is a
Lean function of the path string alone, so determinism holds by
construction — returning one tag of the enumerated seven; and any path
containing both a `kubepods` segment and a `docker` segment classifies
as kubernetes, because the kubernetes rule is ordered before the
generic docker rule. -/
theorem runtime_classifier_precedence (path : String) :
    (classify_runtime path = "kubernetes" ∨ classify_runtime path = "docker" ∨
     classify_runtime path = "containerd" ∨ classify_runtime path = "podman" ∨
     classify_runtime path = "lxc" ∨ classify_runtime path = "systemd" ∨
     classify_runtime path = "host") ∧
    (containsSub "kubepods".data path.data = true →
      containsSub "docker".data path.data = true →
      classify_runtime path = "kubernetes") := by
  constructor
  · unfold classify_runtime
    split_ifs <;> simp
  · intro h1 _
    simp [classify_runtime, h1]

/-- Claim C2, witness: the spec's own scenario path contains both
segments and classifies as kubernetes. -/
theorem runtime_classifier_precedence_witness :
    containsSub "kubepods".data
        "/kubepods/burstable/pod123/docker-abcdef0123456789abcdef.scope".data = true ∧
    containsSub "docker".data
        "/kubepods/burstable/pod123/docker-abcdef0123456789abcdef.scope".data = true ∧
    classify_runtime "/kubepods/burstable/pod123/docker-abcdef0123456789abcdef.scope"
        = "kubernetes" :=
  ⟨by decide, by decide,
    (runtime_classifier_precedence
      "/kubepods/burstable/pod123/docker-abcdef0123456789abcdef.scope").2
      (by decide) (by decide)⟩

theorem dockerMetadataLoop_keys (cid : List Char) :
    ∀ entries k v, (k, v) ∈ dockerMetadataLoop cid entries → k = "container_name" := by
  intro entries
  induction entries with
  | nil => intro k v h; simp [dockerMetadataLoop] at h
  | cons e rest ih =>
    obtain ⟨d, cfg⟩ := e
    intro k v h
    rcases cfg with _ | (_ | name) <;>
      rw [dockerMetadataLoop] at h <;> split at h <;>
        first
          | exact ih k v h
          | (simp at h; exact h.1)
          | simp at h

/-- Claim C5, counterexample: the claim says the Metadata Resolver
returns a mapping with exactly the three keys `container_name`,
`pod_name`, `namespace` for every (container id, runtime) pair, but
`resolve_container_metadata`'s handler table has no entry for the
runtimes `kubernetes` and `containerd`, so for a non-empty id and
runtime `kubernetes` it returns the empty mapping (`handlers.get(
runtime, lambda: {})()`). -/
theorem resolver_empty_for_kubernetes :
    resolve_container_metadata none none "abcdef012345" "kubernetes" = [] ∧
    ¬∃ v, ("container_name", v) ∈
      resolve_container_metadata none none "abcdef012345" "kubernetes" := by
  constructor
  · rfl
  · rintro ⟨v, hv⟩
    simp [resolve_container_metadata] at hv

/-- Claim C5, amended: the resolved mapping's keys are always a subset
of {container_name, pod_name, namespace}, and a `host` runtime or empty
container id short-circuits to the all-empty triple; but only the
short-circuit and the lxc handler produce all three keys — docker and
podman lookups return at most `container_name`, and unhandled runtimes
(kubernetes, containerd, anything else) return the empty mapping. -/
theorem resolver_keys_subset (fs : Option (List (String × Option (Option String))))
    (res : Option String) (cid rt : String) :
    (∀ k v, (k, v) ∈ resolve_container_metadata fs res cid rt →
      k ∈ ["container_name", "pod_name", "namespace"]) ∧
    ((cid = "" ∨ rt = "host") →
      resolve_container_metadata fs res cid rt = threeEmpty) := by
  constructor
  · intro k v h
    unfold resolve_container_metadata at h
    split_ifs at h with h1 h2 h3 h4
    · simp only [threeEmpty, List.mem_cons, List.not_mem_nil, or_false,
        Prod.mk.injEq] at h
      rcases h with ⟨hk, hv2⟩ | ⟨hk, hv2⟩ | ⟨hk, hv2⟩ <;> simp [hk]
    · cases fs with
      | none => simp [docker_metadata] at h
      | some entries =>
        have := dockerMetadataLoop_keys cid.data entries k v h
        simp [this]
    · cases res with
      | none => simp [podman_metadata] at h
      | some name =>
        simp [podman_metadata] at h
        simp [h.1]
    · simp only [List.mem_cons, List.not_mem_nil, or_false, Prod.mk.injEq] at h
      rcases h with ⟨hk, hv2⟩ | ⟨hk, hv2⟩ | ⟨hk, hv2⟩ <;> simp [hk]
    · simp at h
  · intro h
    have : (cid = "" || rt = "host") = true := by
      rcases h with h | h <;> simp [h]
    unfold resolve_container_metadata
    simp only [this]
    rfl

/-- Claim C5, witness: the amended contract applied concretely — the
lxc triple's keys are in the allowed set and the host short-circuit
yields the all-empty triple. -/
theorem resolver_keys_subset_witness :
    (("container_name", "abc") ∈ resolve_container_metadata none none "abc" "lxc" ∧
      "container_name" ∈ ["container_name", "pod_name", "namespace"]) ∧
    (("" : String) = "" ∨ ("host" : String) = "host") ∧
    resolve_container_metadata none none "" "docker" = threeEmpty :=
  ⟨⟨by decide, (resolver_keys_subset none none "abc" "lxc").1 "container_name" "abc"
      (by decide)⟩,
    Or.inl rfl, (resolver_keys_subset none none "" "docker").2 (Or.inl rfl)⟩

/-- Claim C6, counterexample: the claim says a present-but-empty
numeric field defaults to zero; on a 13-field line whose `cpu_pct`
field is empty the parser instead fails (Python `float('')` raises
`ValueError`) and the line is skipped — no record is constructed. -/
theorem empty_numeric_field_skips_line :
    parseLine "h" "1\tu\t\t2.0\t100\t5\tbash\t3\t4\t80\t/sys\tv2\thost" = none := by decide

/-- Claim C6, amended: a present-but-empty numeric field does not
default to zero — `float('')` / `int('')` raise, so the whole line is
treated as a parse failure and skipped (the `or 0.0` fallback only
renames an already-parsed zero).  Stated for every numeric field of
the 13-field schema: pid, cpu_pct, mem_pct, mem_rss_kb, uptime_sec,
disk_read_bytes or disk_write_bytes empty (positions 0, 2, 3, 4, 5, 7,
8), in any layout with at least 13 fields. -/
theorem empty_numeric_field_line_skipped
    (host p0 p1 p2 p3 p4 p5 p6 p7 p8 p9 p10 p11 p12 : String) (rest : List String)
    (h : p0 = "" ∨ p2 = "" ∨ p3 = "" ∨ p4 = "" ∨ p5 = "" ∨ p7 = "" ∨ p8 = "") :
    parseParts host
      (p0 :: p1 :: p2 :: p3 :: p4 :: p5 :: p6 :: p7 :: p8 :: p9 :: p10 :: p11 :: p12 ::
        rest) = none := by
  have hI : pythonParseInt "" = none := rfl
  have hF : pythonParseFloat "" = none := rfl
  rcases h with h | h | h | h | h | h | h <;> subst h <;> simp [parseParts, hI, hF]

/-- Claim C6, witness: the skip behaviour applied to a line whose
disk_write field (the deepest numeric conversion in the chain) is
empty. -/
theorem empty_numeric_field_line_skipped_witness :
    (("1" : String) = "" ∨ ("1.5" : String) = "" ∨ ("2.0" : String) = "" ∨
      ("100" : String) = "" ∨ ("5" : String) = "" ∨ ("3" : String) = "" ∨
      ("" : String) = "") ∧
    parseParts "h"
      ("1" :: "u" :: "1.5" :: "2.0" :: "100" :: "5" :: "bash" :: "3" :: "" :: "80" ::
        "/sys" :: "v2" :: "host" :: []) = none :=
  ⟨by decide,
    empty_numeric_field_line_skipped "h" "1" "u" "1.5" "2.0" "100" "5" "bash" "3" "" "80"
      "/sys" "v2" "host" [] (by decide)⟩

/-- Claim C8: the Label Projector only emits label names contained in
the configured allow-list (`labels_for` filters every candidate through
the normalized include set), and a requested alias — the singular
`port` — resolves through `LABEL_ALIASES` to its canonical plural
`ports`, which is in `VALID_LABELS` and therefore lands in the
configured set. -/
theorem label_projector_allowlist_and_alias :
    (∀ (raw host : String) (rank : Nat) (p : ProcessMetric) (k v : String),
      (k, v) ∈ labels_for (normalize_labels raw) host rank p →
        k ∈ normalize_labels raw) ∧
    (∀ raw : String, "port" ∈ (pySplit ',' raw).map pyStrip →
      "ports" ∈ normalize_labels raw) := by
  constructor
  · intro raw host rank p k v h
    unfold labels_for at h
    rw [List.mem_filter] at h
    exact of_decide_eq_true h.2
  · intro raw h
    unfold normalize_labels
    exact List.mem_filterMap.mpr ⟨"port", h, by decide⟩

/-- Claim C8, witness: a configuration string consisting of the alias
`port` yields the canonical `ports` in the normalized allow-list. -/
theorem label_projector_allowlist_and_alias_witness :
    ("port" ∈ (pySplit ',' "port,bogus").map pyStrip ∧
      "ports" ∈ normalize_labels "port,bogus") ∧
    (("ports", "80") ∈
        labels_for (normalize_labels "port,bogus") "h" 1 portsRec ∧
      "ports" ∈ normalize_labels "port,bogus") :=
  ⟨⟨by decide, label_projector_allowlist_and_alias.2 "port,bogus" (by decide)⟩,
    ⟨by decide,
      label_projector_allowlist_and_alias.1 "port,bogus" "h" 1 portsRec "ports" "80"
        (by decide)⟩⟩

/-- Claim C9: gzip is applied if and only if the gzip flag is enabled,
the client's `Accept-Encoding` contains `gzip`, and the rendered
payload length is at or above the configured minimum size; below the
threshold the condition is false even when the flag is set and the
client advertises support. -/
theorem gzip_iff_enabled_accepted_threshold :
    (∀ (e : Bool) (a : String) (n t : Nat),
      useGzip e a n t = true ↔
        (e = true ∧ containsSub "gzip".data a.data = true ∧ t ≤ n)) ∧
    (∀ (e : Bool) (a : String) (n t : Nat), n < t → useGzip e a n t = false) := by
  constructor
  · intro e a n t
    simp [useGzip, and_assoc]
  · intro e a n t h
    simp [useGzip, Nat.not_le.mpr h]

/-- Claim C9, witness: with the default 1024-byte threshold a
100-byte payload is not compressed even for a gzip-capable client. -/
theorem gzip_iff_enabled_accepted_threshold_witness :
    (100 < 1024) ∧ useGzip true "gzip, deflate" 100 1024 = false :=
  ⟨by decide, gzip_iff_enabled_accepted_threshold.2 true "gzip, deflate" 100 1024
    (by decide)⟩

/-- Claim C1, counterexample: on a collector timeout the collection
step does return the empty record set and /metrics still answers 200,
but the scrape-error counter is NOT incremented — `collect_data`
swallows the exception and returns `[]`, and `_handle_metrics` treats
an empty record set as a warning-only path that never touches
`SCRAPE_ERRORS` (the counter is only incremented in the generic
`except` branch).  So the claim's "incremented by exactly 1" is false. -/
theorem collector_failure_does_not_increment_errors :
    collect_data "h" none none 50 CollectorOutcome.timeoutError = [] ∧
    (handle_metrics defaultInclude "h" 50
        (collect_data "h" none none 50 CollectorOutcome.timeoutError) emptyState).2
      = 200 ∧
    (handle_metrics defaultInclude "h" 50
        (collect_data "h" none none 50 CollectorOutcome.timeoutError)
        emptyState).1.scrapeErrors = emptyState.scrapeErrors ∧
    (handle_metrics defaultInclude "h" 50
        (collect_data "h" none none 50 CollectorOutcome.timeoutError)
        emptyState).1.scrapeErrors ≠ emptyState.scrapeErrors + 1 := by decide

/-- Claim C1, amended: for every collector failure (timeout, non-zero
exit, missing binary) the collection step returns the empty record set
and GET /metrics still completes with status 200, but the scrape-error
counter is left unchanged — the whole registry state is returned
untouched by the empty-scrape path. -/
theorem collector_failure_empty_and_200 (host : String)
    (fs : Option (List (String × Option (Option String)))) (res : Option String)
    (topN : Nat) (o : CollectorOutcome) (h : o.isFailure = true) :
    collect_data host fs res topN o = [] ∧
    ∀ (ls : List String) (hh : String) (st : ExporterState),
      handle_metrics ls hh topN (collect_data host fs res topN o) st = (st, 200) := by
  cases o with
  | ok s => simp [CollectorOutcome.isFailure] at h
  | calledProcessError => exact ⟨rfl, fun ls hh st => rfl⟩
  | timeoutError => exact ⟨rfl, fun ls hh st => rfl⟩
  | fileNotFoundError => exact ⟨rfl, fun ls hh st => rfl⟩

/-- Claim C1, witness: the amended behaviour at a concrete timeout. -/
theorem collector_failure_empty_and_200_witness :
    CollectorOutcome.timeoutError.isFailure = true ∧
    collect_data "hw" none none 3 CollectorOutcome.timeoutError = [] ∧
    handle_metrics ["pid"] "hw" 3
      (collect_data "hw" none none 3 CollectorOutcome.timeoutError) emptyState
      = (emptyState, 200) :=
  ⟨by decide,
    (collector_failure_empty_and_200 "hw" none none 3 CollectorOutcome.timeoutError
      (by decide)).1,
    (collector_failure_empty_and_200 "hw" none none 3 CollectorOutcome.timeoutError
      (by decide)).2 ["pid"] "hw" emptyState⟩

/-- Claim C4, counterexample: the claim says an empty (or failed)
scrape still clears the previously populated dimension series before
rendering; in the code `_handle_metrics` returns through the
`if not processes` branch BEFORE `clear_metrics()` is reached, so a
populated cpu series from an earlier scrape is still served. -/
theorem empty_scrape_serves_stale_series :
    (handle_metrics defaultInclude "h" 50 [] staleState).1.cpuGauge
      = [([("pid", "1")], 5)] ∧
    ([([("pid", "1")], (5 : Rat))] : List (List (String × String) × Rat)) ≠ [] ∧
    (handle_metrics defaultInclude "h" 50 [] staleState).2 = 200 := by decide

/-- Claim C4, amended: a scrape whose collection step yields an empty
record set does NOT clear the per-dimension gauge series — the handler
renders immediately and returns the previous registry state unchanged
(stale rankings from the last non-empty scrape keep being served);
clearing only happens on the non-empty path, after which the gauges are
repopulated from the fresh ranked lists. -/
theorem empty_scrape_leaves_state_unchanged (ls : List String) (hh : String)
    (topN : Nat) (st : ExporterState) :
    handle_metrics ls hh topN [] st = (st, 200) := rfl

theorem assignRanks_untouched : ∀ (l : List (Nat × ProcessMetric)) (j : Nat)
    (r : Nat → Nat) (i : Nat), i ∉ l.map Prod.fst → assignRanks l j r i = r i := by
  intro l
  induction l with
  | nil => intro j r i _; rfl
  | cons a rest ih =>
    obtain ⟨a1, a2⟩ := a
    intro j r i h
    rw [List.map_cons, List.mem_cons, not_or] at h
    rw [assignRanks, ih (j + 1) _ i h.2]
    exact if_neg h.1

theorem assignRanks_dense : ∀ (l : List (Nat × ProcessMetric)) (j : Nat) (r : Nat → Nat),
    (l.map Prod.fst).Nodup →
    l.map (fun it => assignRanks l j r it.1) = List.range' j l.length := by
  intro l
  induction l with
  | nil => intro j r _; rfl
  | cons a rest ih =>
    obtain ⟨a1, a2⟩ := a
    intro j r h
    rw [List.map_cons, List.nodup_cons] at h
    rw [List.map_cons, assignRanks, List.length_cons, List.range'_succ]
    refine congrArg₂ List.cons ?_ ?_
    · rw [assignRanks_untouched rest (j + 1) _ a1 h.1]
      exact if_pos rfl
    · exact ih (j + 1) _ h.2

/-- Claim C3, counterexample: the ranks carried by a ranked list's
records at render time are not the dense sequence 1..len.  The five
`get_top_n` calls of `aggregate_top` mutate the single shared `rank`
field of each record, in the order memory, cpu, disk_read, disk_write,
combined; a record that also appears in a later list carries the later
list's rank when `_handle_metrics` builds labels.  With two processes —
pmA (cpu 10, mem 0) and pmB (cpu 5, mem 2) — the cpu list is
[pmA, pmB] but the combined key (cpu + 10·mem) ranks pmB first, so the
rendered cpu-series rank labels are ["2", "1"], not ["1", "2"]. -/
theorem rendered_cpu_ranks_not_dense :
    ((handle_metrics defaultInclude "h" 50 [pmA, pmB] emptyState).1.cpuGauge.map
        (fun e => e.1.lookup "rank")) = [some "2", some "1"] ∧
    ([some "2", some "1"] : List (Option String)) ≠ [some "1", some "2"] := by decide

/-- Claim C3, amended: immediately after each `get_top_n` call assigns
ranks, that call's ranked list carries exactly the dense sequence
1..len in list order (no gaps, no repeats); but the rank a record
carries when the list is later rendered into metric labels is the one
assigned by the LAST aggregation that included the record (the
`combined` list being last), so the rendered ranks of a dimension's
list need not be dense. -/
theorem get_top_n_assigns_dense_ranks (k : ProcessMetric → Rat) (n : Nat)
    (items : List (Nat × ProcessMetric)) (r : Nat → Nat)
    (h : (items.map Prod.fst).Nodup) :
    (get_top_n k n items r).1.map (fun it => (get_top_n k n items r).2 it.1)
      = List.range' 1 (get_top_n k n items r).1.length := by
  have hperm : (pySortedDesc (fun it => k it.2) items).Perm items :=
    List.perm_insertionSort _ items
  have hnods : ((pySortedDesc (fun it => k it.2) items).map Prod.fst).Nodup :=
    ((hperm.map Prod.fst).nodup_iff).mpr h
  have hnod : (((pySortedDesc (fun it => k it.2) items).take n).map Prod.fst).Nodup := by
    rw [List.map_take]
    exact hnods.sublist (List.take_sublist n _)
  exact assignRanks_dense _ 1 r hnod

/-- Claim C3, witness: the dense-at-assignment property at a concrete
two-record scrape. -/
theorem get_top_n_assigns_dense_ranks_witness :
    ([(0, pmA), (1, pmB)].map Prod.fst).Nodup ∧
    (get_top_n (fun p => p.cpu_pct) 50 [(0, pmA), (1, pmB)] (fun _ => 0)).1.map
        (fun it => (get_top_n (fun p => p.cpu_pct) 50 [(0, pmA), (1, pmB)]
          (fun _ => 0)).2 it.1)
      = List.range' 1
          (get_top_n (fun p => p.cpu_pct) 50 [(0, pmA), (1, pmB)] (fun _ => 0)).1.length :=
  ⟨by decide, get_top_n_assigns_dense_ranks (fun p => p.cpu_pct) 50 [(0, pmA), (1, pmB)]
    (fun _ => 0) (by decide)⟩

/-- Claim C10: the record set handed to the per-dimension ranking step
is already truncated — `collect_data` ends with `sorted(processes,
key=lambda p: p.cpu_pct + p.mem_pct, reverse=True)[:TOP_N]`, so its
result (the `processes` list that `_handle_metrics` passes to
`aggregate_top`) has at most `topN` records, is ordered by the
composite key cpu+mem descending, is drawn from the parsed, enriched,
filtered records of the scrape, and contains every filtered record
whose composite key exceeds that of any returned record. -/
theorem collect_data_pretruncated (host : String)
    (fs : Option (List (String × Option (Option String)))) (res : Option String)
    (topN : Nat) (out : String) :
    (collect_data host fs res topN (.ok out)).length ≤ topN ∧
    List.Pairwise (fun a b => compositeKey b ≤ compositeKey a)
      (collect_data host fs res topN (.ok out)) ∧
    (collect_data host fs res topN (.ok out)).Subperm
      (collectFromOutput host fs res out) ∧
    (∀ x ∈ collect_data host fs res topN (.ok out),
      ∀ y ∈ collectFromOutput host fs res out,
        compositeKey x < compositeKey y →
          y ∈ collect_data host fs res topN (.ok out)) := by
  have hTot : IsTotal ProcessMetric (fun a b => compositeKey b ≤ compositeKey a) :=
    ⟨fun a b => le_total (compositeKey b) (compositeKey a)⟩
  have hTrans : IsTrans ProcessMetric (fun a b => compositeKey b ≤ compositeKey a) :=
    ⟨fun a b c h1 h2 => le_trans h2 h1⟩
  have hsorted :
      List.Pairwise (fun a b => compositeKey b ≤ compositeKey a)
        (List.insertionSort (fun a b => compositeKey b ≤ compositeKey a)
          (collectFromOutput host fs res out)) :=
    List.sorted_insertionSort (fun a b => compositeKey b ≤ compositeKey a)
      (collectFromOutput host fs res out)
  have hperm :
      (List.insertionSort (fun a b => compositeKey b ≤ compositeKey a)
        (collectFromOutput host fs res out)).Perm (collectFromOutput host fs res out) :=
    List.perm_insertionSort _ _
  have hcd : collect_data host fs res topN (.ok out)
      = (List.insertionSort (fun a b => compositeKey b ≤ compositeKey a)
          (collectFromOutput host fs res out)).take topN := rfl
  refine ⟨?_, ?_, ?_, ?_⟩
  · rw [hcd, List.length_take]
    exact min_le_left _ _
  · rw [hcd]
    exact hsorted.sublist (List.take_sublist _ _)
  · rw [hcd]
    exact ((List.take_sublist topN _).subperm).trans hperm.subperm
  · intro x hx y hy hlt
    rw [hcd] at hx ⊢
    have hsorted' :
        List.Pairwise (fun a b => compositeKey b ≤ compositeKey a)
          ((List.insertionSort (fun a b => compositeKey b ≤ compositeKey a)
              (collectFromOutput host fs res out)).take topN ++
            (List.insertionSort (fun a b => compositeKey b ≤ compositeKey a)
              (collectFromOutput host fs res out)).drop topN) := by
      rw [List.take_append_drop]
      exact hsorted
    have hymem : y ∈
        (List.insertionSort (fun a b => compositeKey b ≤ compositeKey a)
            (collectFromOutput host fs res out)).take topN ++
          (List.insertionSort (fun a b => compositeKey b ≤ compositeKey a)
            (collectFromOutput host fs res out)).drop topN := by
      rw [List.take_append_drop]
      exact hperm.mem_iff.mpr hy
    rcases List.mem_append.mp hymem with hin | hin
    · exact hin
    · have hcross := (List.pairwise_append.mp hsorted').2.2 x hx y hin
      exact absurd hlt (not_lt.mpr hcross)

/-- Claim C10, witness: with `TOP_N = 2` and three parsed records of
composite keys 10, 4, 7, the record with key 7 is kept, and the
dominance part applied to it and the key-10 record shows the latter is
kept too. -/
theorem collect_data_pretruncated_witness :
    ((collectFromOutput "h" none none out0).getD 2 pmA
        ∈ collect_data "h" none none 2 (.ok out0)) ∧
    ((collectFromOutput "h" none none out0).getD 0 pmA
        ∈ collectFromOutput "h" none none out0) ∧
    compositeKey ((collectFromOutput "h" none none out0).getD 2 pmA)
        < compositeKey ((collectFromOutput "h" none none out0).getD 0 pmA) ∧
    ((collectFromOutput "h" none none out0).getD 0 pmA
        ∈ collect_data "h" none none 2 (.ok out0)) :=
  ⟨by decide, by decide, by decide,
    (collect_data_pretruncated "h" none none 2 out0).2.2.2
      ((collectFromOutput "h" none none out0).getD 2 pmA) (by decide)
      ((collectFromOutput "h" none none out0).getD 0 pmA) (by decide) (by decide)⟩
